import Mathlib

/-!
Shallow embedding of the FLASKEAV repository (Flask/SQLAlchemy EAV engine).

The database session is modelled as an explicit record of table rows
(`DB`); each SQLAlchemy query in the source is translated to the
corresponding list operation (`.first()` becomes `List.find?` over the
table in row order, `.filter_by(...).all()` becomes `List.filter`,
`.count()` becomes the length of the filtered list, an in-place update of
a fetched row becomes `setFirst`, `db.session.delete(row)` becomes
`removeFirst`).  Python runtime values crossing these functions are
modelled by `PyValue`; a raised exception is modelled by `Option.none`
(resp. `Except.error` where the source raises `ValueError` with a
message).  `PyValue.null` models Python `None`.
-/

namespace FlaskEAV

/-- Enumeration `DataTypeEnum` from `src/models.py`. -/
inductive DataTypeEnum where
  | VARCHAR
  | TEXT
  | INT
  | BIGINT
  | DECIMAL
  | BOOLEAN
  | DATE
  | DATETIME
  | TIMESTAMP
  | JSON
deriving DecidableEq

/-- A parsed calendar timestamp, the model of a Python `datetime` object
(as produced by `datetime.strptime` in `process_form_data`). -/
structure PyDatetime where
  year : Nat
  month : Nat
  day : Nat
  hour : Nat
  minute : Nat
deriving DecidableEq

/-- A dynamically typed Python value as it flows through the EAV engine.
`null` models Python `None`. -/
inductive PyValue where
  | null
  | str (s : String)
  | int (n : Int)
  | float (q : Rat)
  | bool (b : Bool)
  | datetime (d : PyDatetime)
deriving DecidableEq

/-- Left zero-padding to two digits, used when rendering datetimes. -/
def pad2 (n : Nat) : String :=
  if n < 10 then "0" ++ toString n else toString n

/-- Model of Python `str(value)` for the values handled by the engine. -/
def pyStr : PyValue → String
  | PyValue.null => "None"
  | PyValue.str s => s
  | PyValue.int n => toString n
  | PyValue.float q => toString q
  | PyValue.bool true => "True"
  | PyValue.bool false => "False"
  | PyValue.datetime d =>
      toString d.year ++ "-" ++ pad2 d.month ++ "-" ++ pad2 d.day ++ " "
        ++ pad2 d.hour ++ ":" ++ pad2 d.minute ++ ":00"

/-- Model of Python truthiness (`bool(value)` / `if value:`). -/
def pyTruthy : PyValue → Bool
  | PyValue.null => false
  | PyValue.str s => !(s == "")
  | PyValue.int n => !(n == 0)
  | PyValue.float q => !(q == 0)
  | PyValue.bool b => b
  | PyValue.datetime _ => true

/-- Model of Python `s.strip()`: drop leading and trailing whitespace.
(Defined structurally over the character list so that concrete instances
evaluate inside the kernel.) -/
def pyStrip (s : String) : String :=
  String.mk (((s.data.dropWhile Char.isWhitespace).reverse.dropWhile Char.isWhitespace).reverse)

/-- Model of Python `s.lower()`. -/
def pyLower (s : String) : String :=
  String.mk (s.data.map Char.toLower)

/-- Model of Python `c in s` for a single character. -/
def pyContainsChar (s : String) (c : Char) : Bool :=
  s.data.contains c

/-- Split a character list on a separator character (the model of
splitting a string on a one-character separator). -/
def splitChars (sep : Char) : List Char → List (List Char)
  | [] => [[]]
  | c :: cs =>
    let r := splitChars sep cs
    if c == sep then [] :: r
    else
      match r with
      | [] => [[c]]
      | g :: gs => (c :: g) :: gs

/-- Value of a nonempty all-digit character group, used to model Python
numeric string parsing. -/
def parseDecDigits (cs : List Char) : Option Nat :=
  if !cs.isEmpty && cs.all Char.isDigit then
    some (cs.foldl (fun n c => n * 10 + (c.toNat - 48)) 0)
  else
    Option.none

/-- Model of Python `float(s)` on a string: optional sign, an integer
part and an optional fractional part.  Failure models the raised
`ValueError`. -/
def parseFloatString (s : String) : Option Rat :=
  let t := (pyStrip s).data
  let sign : Rat := if t.head? == some '-' then -1 else 1
  let body := if t.head? == some '-' || t.head? == some '+' then t.drop 1 else t
  match splitChars '.' body with
  | [a] => (parseDecDigits a).map (fun n => sign * (n : Rat))
  | [a, b] =>
      match parseDecDigits a, parseDecDigits b with
      | some na, some nb =>
          some (sign * ((na : Rat) + (nb : Rat) / ((10 : Rat) ^ b.length)))
      | _, _ => Option.none
  | _ => Option.none

/-- Model of Python `float(value)` as used by `set_attribute_value` on
numeric attributes; `Option.none` models a raised exception. -/
def pyFloat : PyValue → Option Rat
  | PyValue.null => Option.none
  | PyValue.str s => parseFloatString s
  | PyValue.int n => some (n : Rat)
  | PyValue.float q => some q
  | PyValue.bool b => some (if b then 1 else 0)
  | PyValue.datetime _ => Option.none

/-- Model of Python `int(s)` on a string; `Option.none` models the
raised `ValueError`. -/
def pyIntOfString (s : String) : Option Int :=
  let t := (pyStrip s).data
  match t with
  | '-' :: rest => (parseDecDigits rest).map (fun n => -(n : Int))
  | '+' :: rest => (parseDecDigits rest).map (fun n => (n : Int))
  | _ => (parseDecDigits t).map (fun n => (n : Int))

/-- Remove the first element satisfying `p` (models
`db.session.delete(row)` on the row returned by `.first()`). -/
def removeFirst (p : α → Bool) : List α → List α
  | [] => []
  | x :: xs => if p x then xs else x :: removeFirst p xs

/-- Replace the first element satisfying `p` by its image under `f`
(models an in-place update of the row returned by `.first()`). -/
def setFirst (p : α → Bool) (f : α → α) : List α → List α
  | [] => []
  | x :: xs => if p x then f x :: xs else x :: setFirst p f xs

-- ===========================================
-- Table rows (the columns the embedded functions read or write)
-- ===========================================

/-- Row of `EntityType` (`src/models.py`). -/
structure EntityType where
  id : Nat
  module_id : Nat
  code : String
  is_active : Bool
deriving DecidableEq

/-- Row of `AttributeDefinition` (`src/models.py`). -/
structure AttributeDefinition where
  id : Nat
  entity_type_id : Nat
  code : String
  name : String
  data_type : DataTypeEnum
  is_required : Bool
  is_unique : Bool
  is_active : Bool
deriving DecidableEq

/-- Row of `EntityInstance` (`src/models.py`). -/
structure EntityInstance where
  id : Nat
  entity_type_id : Nat
  is_active : Bool
deriving DecidableEq

/-- Row of `AttributeValueText`. -/
structure AttributeValueText where
  entity_instance_id : Nat
  attribute_definition_id : Nat
  value : String
deriving DecidableEq

/-- Row of `AttributeValueNumeric`. -/
structure AttributeValueNumeric where
  entity_instance_id : Nat
  attribute_definition_id : Nat
  value : Rat
deriving DecidableEq

/-- Row of `AttributeValueDatetime`. -/
structure AttributeValueDatetime where
  entity_instance_id : Nat
  attribute_definition_id : Nat
  value : PyDatetime
deriving DecidableEq

/-- Row of `AttributeValueBoolean`. -/
structure AttributeValueBoolean where
  entity_instance_id : Nat
  attribute_definition_id : Nat
  value : Bool
deriving DecidableEq

/-- Row of `FormFieldConfiguration`, with the joined `attribute_definition`
relationship embedded (the routes always access fields through the
join with `AttributeDefinition`). -/
structure FormFieldConfiguration where
  attribute_definition : AttributeDefinition
  is_visible : Bool
  is_editable : Bool
  is_required : Bool
deriving DecidableEq

/-- Row of `User` (only the columns read by the permission helpers). -/
structure User where
  id : Nat
deriving DecidableEq

/-- Row of `UserRole`. -/
structure UserRole where
  user_id : Nat
  role_id : Nat
deriving DecidableEq

/-- Row of `EntityPermission`. -/
structure EntityPermission where
  role_id : Nat
  entity_type_id : Nat
  can_read : Bool
  can_create : Bool
  can_update : Bool
  can_delete : Bool
deriving DecidableEq

/-- The database session state: one list of rows per table, in row
order, plus the autoincrement counter for `entity_instances.id`. -/
structure DB where
  entity_types : List EntityType
  attribute_definitions : List AttributeDefinition
  entity_instances : List EntityInstance
  text_values : List AttributeValueText
  numeric_values : List AttributeValueNumeric
  datetime_values : List AttributeValueDatetime
  boolean_values : List AttributeValueBoolean
  form_field_configurations : List FormFieldConfiguration
  users : List User
  user_roles : List UserRole
  entity_permissions : List EntityPermission
  next_instance_id : Nat
deriving DecidableEq

-- ===========================================
-- EAV value store: get_attribute_value / set_attribute_value
-- ===========================================

/-- Method `EntityInstance.get_attribute_value` (`src/models.py:290`):
resolve the attribute by `(entity_type_id, code)`, pick the store
matching its `data_type`, and return the first matching row's value, or
`None`. -/
def get_attribute_value (db : DB) (self : EntityInstance) (attribute_code : String) : PyValue :=
  match db.attribute_definitions.find?
      (fun a => a.entity_type_id == self.entity_type_id && a.code == attribute_code) with
  | Option.none => PyValue.null
  | some attr_def =>
    if attr_def.data_type ∈ [DataTypeEnum.VARCHAR, DataTypeEnum.TEXT] then
      match db.text_values.find?
          (fun r => r.entity_instance_id == self.id && r.attribute_definition_id == attr_def.id) with
      | some v => PyValue.str v.value
      | Option.none => PyValue.null
    else if attr_def.data_type ∈ [DataTypeEnum.INT, DataTypeEnum.BIGINT, DataTypeEnum.DECIMAL] then
      match db.numeric_values.find?
          (fun r => r.entity_instance_id == self.id && r.attribute_definition_id == attr_def.id) with
      | some v => PyValue.float v.value
      | Option.none => PyValue.null
    else if attr_def.data_type ∈ [DataTypeEnum.DATE, DataTypeEnum.DATETIME, DataTypeEnum.TIMESTAMP] then
      match db.datetime_values.find?
          (fun r => r.entity_instance_id == self.id && r.attribute_definition_id == attr_def.id) with
      | some v => PyValue.datetime v.value
      | Option.none => PyValue.null
    else if attr_def.data_type == DataTypeEnum.BOOLEAN then
      match db.boolean_values.find?
          (fun r => r.entity_instance_id == self.id && r.attribute_definition_id == attr_def.id) with
      | some v => PyValue.bool v.value
      | Option.none => PyValue.null
    else
      PyValue.null

/-- Method `EntityInstance.set_attribute_value` (`src/models.py:313`): route the
write to the store matching the attribute's `data_type`; update the
existing row in place, delete it when `value` is `None`, or insert a new
row when no row exists and `value` is not `None`.  The returned `Bool`
is the function's Python return value; `Option.none` models a raised
exception (failed `float(value)` conversion, or a non-datetime value
reaching the datetime column). -/
def set_attribute_value (db : DB) (self : EntityInstance) (attribute_code : String)
    (value : PyValue) : Option (DB × Bool) :=
  match db.attribute_definitions.find?
      (fun a => a.entity_type_id == self.entity_type_id && a.code == attribute_code) with
  | Option.none => some (db, false)
  | some attr_def =>
    if attr_def.data_type ∈ [DataTypeEnum.VARCHAR, DataTypeEnum.TEXT] then
      let p := fun (r : AttributeValueText) => r.entity_instance_id == self.id && r.attribute_definition_id == attr_def.id
      if (db.text_values.find? p).isSome then
        if value ≠ PyValue.null then
          let db2 := { db with text_values := setFirst p (fun r => { r with value := pyStr value }) db.text_values }
          some (db2, true)
        else
          let db2 := { db with text_values := removeFirst p db.text_values }
          some (db2, true)
      else if value ≠ PyValue.null then
        let row : AttributeValueText := { entity_instance_id := self.id, attribute_definition_id := attr_def.id, value := pyStr value }
        let db2 := { db with text_values := db.text_values ++ [row] }
        some (db2, true)
      else
        some (db, true)
    else if attr_def.data_type ∈ [DataTypeEnum.INT, DataTypeEnum.BIGINT, DataTypeEnum.DECIMAL] then
      let p := fun (r : AttributeValueNumeric) => r.entity_instance_id == self.id && r.attribute_definition_id == attr_def.id
      if (db.numeric_values.find? p).isSome then
        if value ≠ PyValue.null then
          match pyFloat value with
          | some q =>
              let db2 := { db with numeric_values := setFirst p (fun r => { r with value := q }) db.numeric_values }
              some (db2, true)
          | Option.none => Option.none
        else
          let db2 := { db with numeric_values := removeFirst p db.numeric_values }
          some (db2, true)
      else if value ≠ PyValue.null then
        match pyFloat value with
        | some q =>
            let row : AttributeValueNumeric := { entity_instance_id := self.id, attribute_definition_id := attr_def.id, value := q }
            let db2 := { db with numeric_values := db.numeric_values ++ [row] }
            some (db2, true)
        | Option.none => Option.none
      else
        some (db, true)
    else if attr_def.data_type ∈ [DataTypeEnum.DATE, DataTypeEnum.DATETIME, DataTypeEnum.TIMESTAMP] then
      let p := fun (r : AttributeValueDatetime) => r.entity_instance_id == self.id && r.attribute_definition_id == attr_def.id
      if (db.datetime_values.find? p).isSome then
        match value with
        | PyValue.datetime d =>
            let db2 := { db with datetime_values := setFirst p (fun r => { r with value := d }) db.datetime_values }
            some (db2, true)
        | PyValue.null =>
            let db2 := { db with datetime_values := removeFirst p db.datetime_values }
            some (db2, true)
        | _ => Option.none
      else
        match value with
        | PyValue.datetime d =>
            let row : AttributeValueDatetime := { entity_instance_id := self.id, attribute_definition_id := attr_def.id, value := d }
            let db2 := { db with datetime_values := db.datetime_values ++ [row] }
            some (db2, true)
        | PyValue.null => some (db, true)
        | _ => Option.none
    else if attr_def.data_type == DataTypeEnum.BOOLEAN then
      let p := fun (r : AttributeValueBoolean) => r.entity_instance_id == self.id && r.attribute_definition_id == attr_def.id
      if (db.boolean_values.find? p).isSome then
        if value ≠ PyValue.null then
          let db2 := { db with boolean_values := setFirst p (fun r => { r with value := pyTruthy value }) db.boolean_values }
          some (db2, true)
        else
          let db2 := { db with boolean_values := removeFirst p db.boolean_values }
          some (db2, true)
      else if value ≠ PyValue.null then
        let row : AttributeValueBoolean := { entity_instance_id := self.id, attribute_definition_id := attr_def.id, value := pyTruthy value }
        let db2 := { db with boolean_values := db.boolean_values ++ [row] }
        some (db2, true)
      else
        some (db, true)
    else
      some (db, true)

-- ===========================================
-- String comparison and stable sort (model of list.sort(key=...))
-- ===========================================

/-- Code-point lexicographic comparison of character lists, the model of
Python string comparison. -/
def charListLe : List Char → List Char → Bool
  | [], _ => true
  | _ :: _, [] => false
  | a :: as, b :: bs =>
    if a.toNat < b.toNat then true
    else if b.toNat < a.toNat then false
    else charListLe as bs

/-- Python `s1 <= s2` on strings. -/
def pyStrLe (a b : String) : Bool :=
  charListLe a.data b.data

/-- Stable insertion of `x` into `l`: `x` is placed before the first
element not strictly below it. -/
def stableInsert (le : α → α → Bool) (x : α) : List α → List α
  | [] => [x]
  | y :: ys =>
    if le y x && !(le x y) then y :: stableInsert le x ys
    else x :: y :: ys

/-- Stable sort by `le`; extensionally equal to Python's stable
`list.sort` for a total preorder `le`. -/
def stableSort (le : α → α → Bool) : List α → List α
  | [] => []
  | x :: xs => stableInsert le x (stableSort le xs)

-- ===========================================
-- Lookup engine: get_dropdown_options
-- ===========================================

/-- One entry of the list returned by `get_dropdown_options`. -/
structure DropdownOption where
  value : PyValue
  label : PyValue
  instance_id : Nat
deriving DecidableEq

/-- Comparison used by `options.sort(key=lambda x: str(x['label']))`. -/
def labelLe (a b : DropdownOption) : Bool :=
  pyStrLe (pyStr a.label) (pyStr b.label)

/-- The option-collecting loop of `get_dropdown_options`
(`src/models.py:951`): walk the active instances, skip null source
values, under `unique_only` skip values already seen, and append
`{value, label, instance_id}` with the label defaulting to the source
value when the display value is falsy. -/
def dropdownLoop (db : DB) (source_attribute_code display_code : String) (unique_only : Bool) :
    List EntityInstance → List PyValue → List DropdownOption → List DropdownOption
  | [], _, options => options
  | instanceRow :: rest, seen_values, options =>
    let source_value := get_attribute_value db instanceRow source_attribute_code
    let display_value := get_attribute_value db instanceRow display_code
    if source_value ≠ PyValue.null then
      if unique_only && seen_values.contains source_value then
        dropdownLoop db source_attribute_code display_code unique_only rest seen_values options
      else
        let opt : DropdownOption :=
          { value := source_value,
            label := if pyTruthy display_value then display_value else source_value,
            instance_id := instanceRow.id }
        dropdownLoop db source_attribute_code display_code unique_only rest
          (source_value :: seen_values) (options ++ [opt])
    else
      dropdownLoop db source_attribute_code display_code unique_only rest seen_values options

/-- Helper `get_dropdown_options` (`src/models.py:914`): resolve the source
entity type and attributes, collect options from all active instances,
and sort by label.  An unresolvable display attribute code falls back to
the source attribute; an unresolvable entity type or source attribute
yields `[]`. -/
def get_dropdown_options (db : DB) (entity_type_id : Nat) (source_attribute_code : String)
    (display_attribute_code : Option String) (unique_only : Bool) : List DropdownOption :=
  match db.entity_types.find? (fun e => e.id == entity_type_id) with
  | Option.none => []
  | some _ =>
    match db.attribute_definitions.find?
        (fun (a : AttributeDefinition) => a.entity_type_id == entity_type_id
          && a.code == source_attribute_code && a.is_active) with
    | Option.none => []
    | some source_attr =>
      let display_attr :=
        match display_attribute_code with
        | some dc =>
          if dc ≠ source_attribute_code then
            match db.attribute_definitions.find?
                (fun (a : AttributeDefinition) => a.entity_type_id == entity_type_id
                  && a.code == dc && a.is_active) with
            | some d => d
            | Option.none => source_attr
          else source_attr
        | Option.none => source_attr
      let instances := db.entity_instances.filter
        (fun i => i.entity_type_id == entity_type_id && i.is_active)
      let options := dropdownLoop db source_attribute_code display_attr.code unique_only
        instances [] []
      stableSort labelLe options

-- ===========================================
-- Permission engine: get_user_permissions / check_user_permissions
-- ===========================================

/-- The `{can_read, can_create, can_update, can_delete}` result
dictionary of `get_user_permissions`. -/
structure PermissionSet where
  can_read : Bool
  can_create : Bool
  can_update : Bool
  can_delete : Bool
deriving DecidableEq

/-- The all-false permission dictionary. -/
def PermissionSet.noAccess : PermissionSet :=
  { can_read := false, can_create := false, can_update := false, can_delete := false }

/-- The aggregation loop of `get_user_permissions`
(`src/models.py:844`): each flag becomes true as soon as one matching
permission row grants it. -/
def aggregatePermissions : PermissionSet → List EntityPermission → PermissionSet
  | result, [] => result
  | result, perm :: rest =>
    let result :=
      { can_read := result.can_read || perm.can_read,
        can_create := result.can_create || perm.can_create,
        can_update := result.can_update || perm.can_update,
        can_delete := result.can_delete || perm.can_delete }
    aggregatePermissions result rest

/-- Helper `get_user_permissions` (`src/models.py:812`): collect the user's
role ids, load all permission rows for those roles on this entity type,
and OR each flag across the rows.  An unknown user gets no access. -/
def get_user_permissions (db : DB) (user_id entity_type_id : Nat) : PermissionSet :=
  match db.users.find? (fun u => u.id == user_id) with
  | Option.none => PermissionSet.noAccess
  | some _ =>
    let user_role_ids := (db.user_roles.filter (fun ur => ur.user_id == user_id)).map
      (fun ur => ur.role_id)
    let permissions := db.entity_permissions.filter
      (fun p => user_role_ids.contains p.role_id && p.entity_type_id == entity_type_id)
    aggregatePermissions PermissionSet.noAccess permissions

/-- The early-return loop of `check_user_permissions`
(`src/models.py:1069`). -/
def checkPermLoop (operation : String) : List EntityPermission → Bool
  | [] => false
  | permission :: rest =>
    if operation == "READ" && permission.can_read then true
    else if operation == "CREATE" && permission.can_create then true
    else if operation == "UPDATE" && permission.can_update then true
    else if operation == "DELETE" && permission.can_delete then true
    else checkPermLoop operation rest

/-- Helper `check_user_permissions` (`src/models.py:1056`): true iff some
permission row of one of the user's roles on this entity type grants the
named operation. -/
def check_user_permissions (db : DB) (user_id entity_type_id : Nat) (operation : String) : Bool :=
  match db.users.find? (fun u => u.id == user_id) with
  | Option.none => false
  | some _ =>
    let user_roles := (db.user_roles.filter (fun ur => ur.user_id == user_id)).map
      (fun ur => ur.role_id)
    let permissions := db.entity_permissions.filter
      (fun p => user_roles.contains p.role_id && p.entity_type_id == entity_type_id)
    checkPermLoop operation permissions

-- ===========================================
-- Form processing: process_form_data (src/app.py:246)
-- ===========================================

/-- Model of `datetime.strptime(value, "%Y-%m-%d")`: three dash-joined
digit groups with in-range month and day. -/
def parseDateOnly (s : String) : Option PyDatetime :=
  match splitChars '-' s.data with
  | [y, m, d] =>
    match parseDecDigits y, parseDecDigits m, parseDecDigits d with
    | some yv, some mv, some dv =>
      if 1 ≤ mv && mv ≤ 12 && 1 ≤ dv && dv ≤ 31 then
        some { year := yv, month := mv, day := dv, hour := 0, minute := 0 }
      else Option.none
    | _, _, _ => Option.none
  | _ => Option.none

/-- Model of `datetime.strptime(value, "%Y-%m-%dT%H:%M")`. -/
def parseDateTimeString (s : String) : Option PyDatetime :=
  match splitChars 'T' s.data with
  | [ds, ts] =>
    match parseDateOnly (String.mk ds), splitChars ':' ts with
    | some d, [h, mi] =>
      match parseDecDigits h, parseDecDigits mi with
      | some hv, some miv =>
        if hv ≤ 23 && miv ≤ 59 then some { d with hour := hv, minute := miv }
        else Option.none
      | _, _ => Option.none
    | _, _ => Option.none
  | _ => Option.none

/-- Assignment `attribute_values[code] = v` on the Python dict, modelled as an
association list in insertion order. -/
def dictInsert : List (String × PyValue) → String → PyValue → List (String × PyValue)
  | [], k, v => [(k, v)]
  | (k2, v2) :: rest, k, v =>
    if k2 == k then (k, v) :: rest else (k2, v2) :: dictInsert rest k v

/-- One iteration of the `process_form_data` loop for a single field:
invisible fields are skipped; a missing or blank value stores `None`
only when the field is optional and is otherwise skipped; a non-blank
value is coerced by the attribute's `data_type`, a coercion failure on a
required field raising `ValueError` (the `Except.error` case) and on an
optional field storing `None`. -/
def processField (request_form : String → Option String)
    (attribute_values : List (String × PyValue)) (field : FormFieldConfiguration) :
    Except String (List (String × PyValue)) :=
  let code := field.attribute_definition.code
  let field_name := "attr_" ++ code
  if !field.is_visible then Except.ok attribute_values
  else
    let requiredFlag := field.is_required || field.attribute_definition.is_required
    match request_form field_name with
    | Option.none =>
      if !requiredFlag then Except.ok (dictInsert attribute_values code PyValue.null)
      else Except.ok attribute_values
    | some value =>
      if value == "" || pyStrip value == "" then
        if !requiredFlag then Except.ok (dictInsert attribute_values code PyValue.null)
        else Except.ok attribute_values
      else
        let failPath : Except String (List (String × PyValue)) :=
          if !requiredFlag then Except.ok (dictInsert attribute_values code PyValue.null)
          else Except.error ("Invalid value for " ++ field.attribute_definition.name ++ ": " ++ value)
        if field.attribute_definition.data_type ∈ [DataTypeEnum.INT, DataTypeEnum.BIGINT] then
          match pyIntOfString value with
          | some n => Except.ok (dictInsert attribute_values code (PyValue.int n))
          | Option.none => failPath
        else if field.attribute_definition.data_type == DataTypeEnum.DECIMAL then
          match parseFloatString value with
          | some q => Except.ok (dictInsert attribute_values code (PyValue.float q))
          | Option.none => failPath
        else if field.attribute_definition.data_type == DataTypeEnum.BOOLEAN then
          Except.ok (dictInsert attribute_values code
            (PyValue.bool (["true", "1", "yes", "on"].contains (pyLower value))))
        else if field.attribute_definition.data_type ∈ [DataTypeEnum.DATE, DataTypeEnum.DATETIME] then
          if pyContainsChar value 'T' then
            match parseDateTimeString value with
            | some d => Except.ok (dictInsert attribute_values code (PyValue.datetime d))
            | Option.none => failPath
          else
            match parseDateOnly value with
            | some d => Except.ok (dictInsert attribute_values code (PyValue.datetime d))
            | Option.none => failPath
        else
          Except.ok (dictInsert attribute_values code (PyValue.str (pyStrip value)))

/-- The field loop of `process_form_data`, threading the accumulated
dictionary and propagating a raised `ValueError`. -/
def processFields (request_form : String → Option String) :
    List FormFieldConfiguration → List (String × PyValue) →
    Except String (List (String × PyValue))
  | [], attribute_values => Except.ok attribute_values
  | field :: rest, attribute_values =>
    match processField request_form attribute_values field with
    | Except.ok acc2 => processFields request_form rest acc2
    | Except.error e => Except.error e

/-- Helper `process_form_data` (`src/app.py:246`): build the attribute-value
dictionary for a create or edit submission. -/
def process_form_data (form_fields : List FormFieldConfiguration)
    (request_form : String → Option String) : Except String (List (String × PyValue)) :=
  processFields request_form form_fields []

-- ===========================================
-- Designer: delete_attribute (src/entity_designer/__init__.py:422)
-- ===========================================

/-- Outcome of the `delete_attribute` route: the 404 branch, the 400
"has N data records" refusal, or success. -/
inductive DeleteOutcome where
  | notFound
  | blocked (count : Nat)
  | deleted
deriving DecidableEq

/-- Route `delete_attribute` (`src/entity_designer/__init__.py:422`): refuse
when the dependent-row count is positive, where the count is taken from
the text store for VARCHAR/TEXT attributes and from the numeric store
for INT/BIGINT/DECIMAL attributes, and is zero for every other data
type; otherwise delete the form field configurations and the
attribute. -/
def delete_attribute (db : DB) (entity_id attr_id : Nat) : DeleteOutcome × DB :=
  match db.attribute_definitions.find?
      (fun a => a.id == attr_id && a.entity_type_id == entity_id) with
  | Option.none => (DeleteOutcome.notFound, db)
  | some attributeRow =>
    let instance_count :=
      if attributeRow.data_type ∈ [DataTypeEnum.VARCHAR, DataTypeEnum.TEXT] then
        (db.text_values.filter (fun r => r.attribute_definition_id == attr_id)).length
      else if attributeRow.data_type ∈ [DataTypeEnum.INT, DataTypeEnum.BIGINT, DataTypeEnum.DECIMAL] then
        (db.numeric_values.filter (fun r => r.attribute_definition_id == attr_id)).length
      else 0
    if instance_count > 0 then (DeleteOutcome.blocked instance_count, db)
    else
      let db2 := { db with
        form_field_configurations := db.form_field_configurations.filter
          (fun f => !(f.attribute_definition.id == attr_id)),
        attribute_definitions := removeFirst
          (fun a => a.id == attr_id && a.entity_type_id == entity_id) db.attribute_definitions }
      (DeleteOutcome.deleted, db2)

-- ===========================================
-- Instance creation (src/models.py:1015)
-- ===========================================

/-- The write loop of `create_entity_instance_with_attributes`: apply
`set_attribute_value` for every non-null entry; an exception aborts the
whole loop. -/
def setManyAttributes (inst : EntityInstance) :
    DB → List (String × PyValue) → Option DB
  | db, [] => some db
  | db, (attr_code, v) :: rest =>
    if v ≠ PyValue.null then
      match set_attribute_value db inst attr_code v with
      | some (db2, _) => setManyAttributes inst db2 rest
      | Option.none => Option.none
    else setManyAttributes inst db rest

/-- Helper `create_entity_instance_with_attributes` (`src/models.py:1015`):
insert a new `EntityInstance` row (its id assigned by the flush), then
set every non-null attribute value; on success return the committed
state and the new instance id, on any exception roll everything back
(`Option.none`, the original state). -/
def create_entity_instance_with_attributes (db : DB) (entity_type_id : Nat)
    (attribute_values : List (String × PyValue)) : Option (DB × Nat) :=
  let instanceRow : EntityInstance :=
    { id := db.next_instance_id, entity_type_id := entity_type_id, is_active := true }
  let db1 := { db with
    entity_instances := db.entity_instances ++ [instanceRow],
    next_instance_id := db.next_instance_id + 1 }
  match setManyAttributes instanceRow db1 attribute_values with
  | some db2 => some (db2, instanceRow.id)
  | Option.none => Option.none

-- ===========================================
-- Generic lemmas about removeFirst / setFirst / the stable sort
-- ===========================================

lemma countP_removeFirst_eq_zero (p : α → Bool) :
    ∀ l : List α, l.countP p ≤ 1 → (removeFirst p l).countP p = 0 := by
  intro l
  induction l with
  | nil => intro _; simp [removeFirst]
  | cons x xs ih =>
    intro h
    by_cases hp : p x
    · rw [List.countP_cons_of_pos p xs hp] at h
      have hxs : xs.countP p = 0 := by omega
      simpa [removeFirst, hp] using hxs
    · rw [List.countP_cons_of_neg p xs (by simpa using hp)] at h
      have := ih h
      simpa [removeFirst, hp, List.countP_cons_of_neg p _ (by simpa using hp)] using this

lemma find?_eq_none_of_countP_eq_zero {p : α → Bool} {l : List α}
    (h : l.countP p = 0) : l.find? p = Option.none := by
  exact List.find?_eq_none.mpr (List.countP_eq_zero.mp h)

lemma find?_setFirst (p : α → Bool) (f : α → α)
    (hf : ∀ x, p x = true → p (f x) = true) :
    ∀ l : List α, (setFirst p f l).find? p = (l.find? p).map f := by
  intro l
  induction l with
  | nil => rfl
  | cons x xs ih =>
    by_cases hp : p x
    · simp [setFirst, hp, List.find?_cons_of_pos _ hp, List.find?_cons_of_pos _ (hf x hp)]
    · simp [setFirst, hp, List.find?_cons_of_neg _ (by simpa using hp), ih]

lemma stableInsert_perm (le : α → α → Bool) (x : α) :
    ∀ l : List α, (stableInsert le x l).Perm (x :: l) := by
  intro l
  induction l with
  | nil => simp [stableInsert]
  | cons y ys ih =>
    by_cases hc : le y x && !(le x y)
    · simp only [stableInsert, hc, if_true]
      exact (List.Perm.cons y ih).trans (List.Perm.swap x y ys)
    · simp [stableInsert, hc]

lemma stableSort_perm (le : α → α → Bool) :
    ∀ l : List α, (stableSort le l).Perm l := by
  intro l
  induction l with
  | nil => simp [stableSort]
  | cons x xs ih =>
    exact ((stableInsert_perm le x (stableSort le xs)).trans (List.Perm.cons x ih))

lemma mem_stableInsert {le : α → α → Bool} {x a : α} {l : List α} :
    a ∈ stableInsert le x l ↔ a = x ∨ a ∈ l := by
  rw [(stableInsert_perm le x l).mem_iff]
  simp

lemma mem_stableSort {le : α → α → Bool} {a : α} {l : List α} :
    a ∈ stableSort le l ↔ a ∈ l :=
  (stableSort_perm le l).mem_iff

lemma pairwise_stableInsert {le : α → α → Bool}
    (htrans : ∀ a b c, le a b = true → le b c = true → le a c = true)
    (htotal : ∀ a b, le a b = true ∨ le b a = true) (x : α) :
    ∀ l : List α, List.Pairwise (fun a b => le a b = true) l →
      List.Pairwise (fun a b => le a b = true) (stableInsert le x l) := by
  intro l
  induction l with
  | nil => intro _; simp [stableInsert]
  | cons y ys ih =>
    intro h
    by_cases hc : le y x && !(le x y)
    · simp only [stableInsert, hc, if_true]
      refine List.Pairwise.cons ?_ (ih h.tail)
      intro z hz
      rcases mem_stableInsert.mp hz with hz | hz
      · subst hz
        have hc2 := hc
        rw [Bool.and_eq_true] at hc2
        exact hc2.1
      · exact List.rel_of_pairwise_cons h hz
    · have hxy : le x y = true := by
        rcases htotal x y with h1 | h1
        · exact h1
        · by_cases h2 : le x y
          · exact h2
          · exact absurd (by simp [h1, h2]) hc
      simp only [stableInsert, hc, if_false]
      refine List.Pairwise.cons ?_ h
      intro z hz
      rcases List.mem_cons.mp hz with hz | hz
      · subst hz; exact hxy
      · exact htrans x y z hxy (List.rel_of_pairwise_cons h hz)

lemma pairwise_stableSort {le : α → α → Bool}
    (htrans : ∀ a b c, le a b = true → le b c = true → le a c = true)
    (htotal : ∀ a b, le a b = true ∨ le b a = true) :
    ∀ l : List α, List.Pairwise (fun a b => le a b = true) (stableSort le l) := by
  intro l
  induction l with
  | nil => simp [stableSort]
  | cons x xs ih => exact pairwise_stableInsert htrans htotal x _ ih

lemma charListLe_total : ∀ as bs : List Char,
    charListLe as bs = true ∨ charListLe bs as = true := by
  intro as
  induction as with
  | nil => intro bs; left; simp [charListLe]
  | cons a as ih =>
    intro bs
    cases bs with
    | nil => right; simp [charListLe]
    | cons b bs =>
      rcases Nat.lt_trichotomy a.toNat b.toNat with h | h | h
      · left; simp [charListLe, h]
      · have h2 : ¬ a.toNat < b.toNat := by omega
        have h3 : ¬ b.toNat < a.toNat := by omega
        rcases ih bs with h4 | h4
        · left; simp [charListLe, h2, h3, h4]
        · right; simp [charListLe, h2, h3, h4]
      · right; simp [charListLe, h]

lemma charListLe_trans : ∀ as bs cs : List Char,
    charListLe as bs = true → charListLe bs cs = true → charListLe as cs = true := by
  intro as
  induction as with
  | nil => intro bs cs _ _; simp [charListLe]
  | cons a as ih =>
    intro bs cs h1 h2
    cases bs with
    | nil => simp [charListLe] at h1
    | cons b bs =>
      cases cs with
      | nil => simp [charListLe] at h2
      | cons c cs =>
        simp only [charListLe] at h1 h2 ⊢
        split at h1
        · rename_i hab
          split at h2
          · rename_i hbc
            have : a.toNat < c.toNat := by omega
            simp [this]
          · split at h2
            · simp at h2
            · rename_i hcb hbc
              have hbc2 : b.toNat = c.toNat := by omega
              have : a.toNat < c.toNat := by omega
              simp [this]
        · split at h1
          · simp at h1
          · rename_i hab hba
            have hab2 : a.toNat = b.toNat := by omega
            split at h2
            · rename_i hbc
              have : a.toNat < c.toNat := by omega
              simp [this]
            · split at h2
              · simp at h2
              · rename_i hbc hcb
                have hbc2 : b.toNat = c.toNat := by omega
                have h3 : ¬ a.toNat < c.toNat := by omega
                have h4 : ¬ c.toNat < a.toNat := by omega
                simp only [h3, h4, if_false]
                exact ih bs cs h1 h2

lemma labelLe_trans : ∀ a b c : DropdownOption,
    labelLe a b = true → labelLe b c = true → labelLe a c = true := by
  intro a b c h1 h2
  exact charListLe_trans _ _ _ h1 h2

lemma labelLe_total : ∀ a b : DropdownOption,
    labelLe a b = true ∨ labelLe b a = true := by
  intro a b
  exact charListLe_total _ _

-- ===========================================
-- Concrete states used by witnesses and counterexamples
-- ===========================================

/-- The empty database state. -/
def emptyDB : DB :=
  { entity_types := [], attribute_definitions := [], entity_instances := [],
    text_values := [], numeric_values := [], datetime_values := [], boolean_values := [],
    form_field_configurations := [], users := [], user_roles := [], entity_permissions := [],
    next_instance_id := 1 }

/-- The `META` attribute row of `dbJson`: a `JSON`-typed attribute on
entity type 1. -/
def metaAttr : AttributeDefinition :=
  ⟨7, 1, "META", "Meta", DataTypeEnum.JSON, false, false, true⟩

/-- A state with the `JSON`-typed attribute `META` on entity type 1 and
one instance. -/
def dbJson : DB :=
  { emptyDB with
    attribute_definitions := [metaAttr],
    entity_instances := [⟨1, 1, true⟩],
    next_instance_id := 2 }

/-- A state with a `BOOLEAN` attribute (id 5) on entity type 1 and one
boolean value row referencing it. -/
def dbBoolAttr : DB :=
  { emptyDB with
    attribute_definitions := [⟨5, 1, "IS_HAZMAT", "Is Hazmat", DataTypeEnum.BOOLEAN, false, false, true⟩],
    entity_instances := [⟨1, 1, true⟩],
    boolean_values := [⟨1, 5, true⟩],
    next_instance_id := 2 }

/-- The `CARGO_NAME` attribute row of `dbCargo`: required, unique,
VARCHAR. -/
def cargoNameAttr : AttributeDefinition :=
  ⟨1, 1, "CARGO_NAME", "Cargo Name", DataTypeEnum.VARCHAR, true, true, true⟩

/-- The CARGO_MASTER scenario of the spec: entity type 1 with required
unique VARCHAR attribute `CARGO_NAME` (id 1), and one active instance
(id 1) whose `CARGO_NAME` is `"Coal"`. -/
def dbCargo : DB :=
  { emptyDB with
    entity_types := [⟨1, 1, "CARGO_MASTER", true⟩],
    attribute_definitions := [cargoNameAttr],
    entity_instances := [⟨1, 1, true⟩],
    text_values := [⟨1, 1, "Coal"⟩],
    next_instance_id := 2 }

/-- A state with user 1 holding two roles on entity type 10: role 1
grants nothing, role 2 grants `can_read`. -/
def dbTwoRoles : DB :=
  { emptyDB with
    users := [⟨1⟩],
    user_roles := [⟨1, 1⟩, ⟨1, 2⟩],
    entity_permissions := [⟨1, 10, false, false, false, false⟩, ⟨2, 10, true, false, false, false⟩] }

-- ===========================================
-- C9
-- ===========================================

/-- C9: for an attribute whose `data_type` is `JSON`,
`set_attribute_value` touches none of the four value stores (the state
is returned unchanged) yet still returns `True`, and
`get_attribute_value` returns `None` for that attribute, so a JSON-typed
value written through the EAV store can never be read back. -/
theorem c9_json_write_lost (db : DB) (inst : EntityInstance) (code : String)
    (a : AttributeDefinition) (v : PyValue)
    (hfind : db.attribute_definitions.find?
      (fun x => x.entity_type_id == inst.entity_type_id && x.code == code) = some a)
    (ha : a.data_type = DataTypeEnum.JSON) :
    set_attribute_value db inst code v = some (db, true) ∧
    get_attribute_value db inst code = PyValue.null := by
  constructor
  · unfold set_attribute_value
    rw [hfind]
    simp [ha]
  · unfold get_attribute_value
    rw [hfind]
    simp [ha]

/-- Witness for C9 at a concrete state. -/
theorem c9_witness :
    set_attribute_value dbJson { id := 1, entity_type_id := 1, is_active := true } "META"
      (PyValue.str "x") = some (dbJson, true) ∧
    get_attribute_value dbJson { id := 1, entity_type_id := 1, is_active := true } "META"
      = PyValue.null :=
  c9_json_write_lost dbJson { id := 1, entity_type_id := 1, is_active := true } "META"
    metaAttr (PyValue.str "x") (by decide) rfl

-- ===========================================
-- C2
-- ===========================================

/-- C2 (code bug): `delete_attribute` checks only the text and numeric
value stores for dependents, so a `BOOLEAN` attribute with a dependent
boolean value row is deleted instead of being refused: on `dbBoolAttr`
the route reports success, the attribute row is gone, and the dependent
boolean row is left behind. -/
theorem c2_delete_ignores_boolean_store :
    (delete_attribute dbBoolAttr 1 5).1 = DeleteOutcome.deleted ∧
    (delete_attribute dbBoolAttr 1 5).2.boolean_values =
      [{ entity_instance_id := 1, attribute_definition_id := 5, value := true }] ∧
    (delete_attribute dbBoolAttr 1 5).2.attribute_definitions = [] := by
  decide

-- ===========================================
-- C10
-- ===========================================

/-- C10: for a user id with no `users` row, or an existing user with no
role assignments, `get_user_permissions` returns all four flags false
and `check_user_permissions` returns false for every operation string
(and neither raises). -/
theorem c10_no_user_or_roles_no_access (db : DB) (user_id entity_type_id : Nat)
    (h : db.users.find? (fun u => u.id == user_id) = Option.none ∨
      ∀ ur ∈ db.user_roles, ¬ ur.user_id = user_id) :
    get_user_permissions db user_id entity_type_id = PermissionSet.noAccess ∧
    ∀ operation : String, check_user_permissions db user_id entity_type_id operation = false := by
  cases hfind : db.users.find? (fun u => u.id == user_id) with
  | none =>
    constructor
    · unfold get_user_permissions
      rw [hfind]
    · intro operation
      unfold check_user_permissions
      rw [hfind]
  | some u =>
    have hr : ∀ ur ∈ db.user_roles, ¬ ur.user_id = user_id := by
      rcases h with h | h
      · rw [h] at hfind; cases hfind
      · exact h
    have hfilter : db.user_roles.filter (fun ur => ur.user_id == user_id) = [] := by
      refine List.filter_eq_nil_iff.mpr ?_
      intro ur hur
      simpa using hr ur hur
    constructor
    · unfold get_user_permissions
      rw [hfind]
      simp [hfilter, aggregatePermissions]
    · intro operation
      unfold check_user_permissions
      rw [hfind]
      simp [hfilter, checkPermLoop]

/-- Witness for C10: user 42 does not exist in `dbTwoRoles`. -/
theorem c10_witness :
    get_user_permissions dbTwoRoles 42 10 = PermissionSet.noAccess ∧
    check_user_permissions dbTwoRoles 42 10 "READ" = false := by
  have h := c10_no_user_or_roles_no_access dbTwoRoles 42 10 (Or.inl (by decide))
  exact ⟨h.1, h.2 "READ"⟩

-- ===========================================
-- C4
-- ===========================================

/-- The aggregation loop ORs each capability flag across the permission
rows it is given. -/
lemma aggregatePermissions_eq : ∀ (l : List EntityPermission) (init : PermissionSet),
    aggregatePermissions init l =
      { can_read := init.can_read || l.any (fun p => p.can_read),
        can_create := init.can_create || l.any (fun p => p.can_create),
        can_update := init.can_update || l.any (fun p => p.can_update),
        can_delete := init.can_delete || l.any (fun p => p.can_delete) } := by
  intro l
  induction l with
  | nil => intro init; simp [aggregatePermissions]
  | cons p rest ih =>
    intro init
    rw [aggregatePermissions, ih]
    simp [Bool.or_assoc]

/-- C4: for an existing user, each of the four capability flags returned
by `get_user_permissions` is true exactly when some `EntityPermission`
row on this entity type, belonging to a role assigned to the user,
grants that flag (logical OR across all such rows; roles without a
permission row contribute nothing). -/
theorem c4_permissions_or_aggregation (db : DB) (user_id entity_type_id : Nat) (u : User)
    (hu : db.users.find? (fun x => x.id == user_id) = some u) :
    ((get_user_permissions db user_id entity_type_id).can_read = true ↔
      ∃ p ∈ db.entity_permissions, p.entity_type_id = entity_type_id ∧ p.can_read = true ∧
        ∃ ur ∈ db.user_roles, ur.user_id = user_id ∧ ur.role_id = p.role_id) ∧
    ((get_user_permissions db user_id entity_type_id).can_create = true ↔
      ∃ p ∈ db.entity_permissions, p.entity_type_id = entity_type_id ∧ p.can_create = true ∧
        ∃ ur ∈ db.user_roles, ur.user_id = user_id ∧ ur.role_id = p.role_id) ∧
    ((get_user_permissions db user_id entity_type_id).can_update = true ↔
      ∃ p ∈ db.entity_permissions, p.entity_type_id = entity_type_id ∧ p.can_update = true ∧
        ∃ ur ∈ db.user_roles, ur.user_id = user_id ∧ ur.role_id = p.role_id) ∧
    ((get_user_permissions db user_id entity_type_id).can_delete = true ↔
      ∃ p ∈ db.entity_permissions, p.entity_type_id = entity_type_id ∧ p.can_delete = true ∧
        ∃ ur ∈ db.user_roles, ur.user_id = user_id ∧ ur.role_id = p.role_id) := by
  unfold get_user_permissions
  rw [hu]
  simp only [aggregatePermissions_eq]
  refine ⟨?_, ?_, ?_, ?_⟩ <;>
  · simp only [PermissionSet.noAccess, Bool.false_or, List.any_eq_true, List.mem_filter,
      Bool.and_eq_true, List.elem_iff, List.mem_map, beq_iff_eq]
    constructor
    · rintro ⟨p, ⟨hp, ⟨ur, ⟨hur1, hur2⟩, hrid⟩, hetid⟩, hflag⟩
      exact ⟨p, hp, hetid, hflag, ur, hur1, hur2, hrid⟩
    · rintro ⟨p, hp, hetid, hflag, ur, hur, huid, hrid⟩
      exact ⟨p, ⟨hp, ⟨ur, ⟨hur, huid⟩, hrid⟩, hetid⟩, hflag⟩

/-- Witness for C4: in `dbTwoRoles`, role 1 denies `can_read` and role 2
grants it, and the user resolves to `can_read = true`. -/
theorem c4_witness : (get_user_permissions dbTwoRoles 1 10).can_read = true := by
  have h := (c4_permissions_or_aggregation dbTwoRoles 1 10 ⟨1⟩ (by decide)).1
  exact h.mpr ⟨⟨2, 10, true, false, false, false⟩, by decide, rfl, rfl,
    ⟨1, 2⟩, by decide, rfl, rfl⟩

-- ===========================================
-- Per-store reading lemmas for get_attribute_value
-- ===========================================

lemma get_attribute_value_of_text (db : DB) (inst : EntityInstance) (code : String)
    (a : AttributeDefinition)
    (hfind : db.attribute_definitions.find?
      (fun x => x.entity_type_id == inst.entity_type_id && x.code == code) = some a)
    (ha : a.data_type ∈ [DataTypeEnum.VARCHAR, DataTypeEnum.TEXT]) :
    get_attribute_value db inst code =
      match db.text_values.find?
          (fun r => r.entity_instance_id == inst.id && r.attribute_definition_id == a.id) with
      | some v => PyValue.str v.value
      | Option.none => PyValue.null := by
  unfold get_attribute_value
  rw [hfind]
  simp only [if_pos ha]

lemma get_attribute_value_of_numeric (db : DB) (inst : EntityInstance) (code : String)
    (a : AttributeDefinition)
    (hfind : db.attribute_definitions.find?
      (fun x => x.entity_type_id == inst.entity_type_id && x.code == code) = some a)
    (ha1 : a.data_type ∉ [DataTypeEnum.VARCHAR, DataTypeEnum.TEXT])
    (ha2 : a.data_type ∈ [DataTypeEnum.INT, DataTypeEnum.BIGINT, DataTypeEnum.DECIMAL]) :
    get_attribute_value db inst code =
      match db.numeric_values.find?
          (fun r => r.entity_instance_id == inst.id && r.attribute_definition_id == a.id) with
      | some v => PyValue.float v.value
      | Option.none => PyValue.null := by
  unfold get_attribute_value
  rw [hfind]
  simp only [if_neg ha1, if_pos ha2]

lemma get_attribute_value_of_datetime (db : DB) (inst : EntityInstance) (code : String)
    (a : AttributeDefinition)
    (hfind : db.attribute_definitions.find?
      (fun x => x.entity_type_id == inst.entity_type_id && x.code == code) = some a)
    (ha1 : a.data_type ∉ [DataTypeEnum.VARCHAR, DataTypeEnum.TEXT])
    (ha2 : a.data_type ∉ [DataTypeEnum.INT, DataTypeEnum.BIGINT, DataTypeEnum.DECIMAL])
    (ha3 : a.data_type ∈ [DataTypeEnum.DATE, DataTypeEnum.DATETIME, DataTypeEnum.TIMESTAMP]) :
    get_attribute_value db inst code =
      match db.datetime_values.find?
          (fun r => r.entity_instance_id == inst.id && r.attribute_definition_id == a.id) with
      | some v => PyValue.datetime v.value
      | Option.none => PyValue.null := by
  unfold get_attribute_value
  rw [hfind]
  simp only [if_neg ha1, if_neg ha2, if_pos ha3]

lemma get_attribute_value_of_boolean (db : DB) (inst : EntityInstance) (code : String)
    (a : AttributeDefinition)
    (hfind : db.attribute_definitions.find?
      (fun x => x.entity_type_id == inst.entity_type_id && x.code == code) = some a)
    (ha : a.data_type = DataTypeEnum.BOOLEAN) :
    get_attribute_value db inst code =
      match db.boolean_values.find?
          (fun r => r.entity_instance_id == inst.id && r.attribute_definition_id == a.id) with
      | some v => PyValue.bool v.value
      | Option.none => PyValue.null := by
  unfold get_attribute_value
  rw [hfind]
  simp [ha]

lemma get_attribute_value_text_update (db : DB) (tvs : List AttributeValueText)
    (inst : EntityInstance) (code : String) (a : AttributeDefinition)
    (hfind : db.attribute_definitions.find?
      (fun x => x.entity_type_id == inst.entity_type_id && x.code == code) = some a)
    (ha : a.data_type ∈ [DataTypeEnum.VARCHAR, DataTypeEnum.TEXT]) :
    get_attribute_value { db with text_values := tvs } inst code =
      match tvs.find?
          (fun r => r.entity_instance_id == inst.id && r.attribute_definition_id == a.id) with
      | some v => PyValue.str v.value
      | Option.none => PyValue.null :=
  get_attribute_value_of_text { db with text_values := tvs } inst code a hfind ha

lemma get_attribute_value_numeric_update (db : DB) (nvs : List AttributeValueNumeric)
    (inst : EntityInstance) (code : String) (a : AttributeDefinition)
    (hfind : db.attribute_definitions.find?
      (fun x => x.entity_type_id == inst.entity_type_id && x.code == code) = some a)
    (ha1 : a.data_type ∉ [DataTypeEnum.VARCHAR, DataTypeEnum.TEXT])
    (ha2 : a.data_type ∈ [DataTypeEnum.INT, DataTypeEnum.BIGINT, DataTypeEnum.DECIMAL]) :
    get_attribute_value { db with numeric_values := nvs } inst code =
      match nvs.find?
          (fun r => r.entity_instance_id == inst.id && r.attribute_definition_id == a.id) with
      | some v => PyValue.float v.value
      | Option.none => PyValue.null :=
  get_attribute_value_of_numeric { db with numeric_values := nvs } inst code a hfind ha1 ha2

lemma get_attribute_value_datetime_update (db : DB) (dvs : List AttributeValueDatetime)
    (inst : EntityInstance) (code : String) (a : AttributeDefinition)
    (hfind : db.attribute_definitions.find?
      (fun x => x.entity_type_id == inst.entity_type_id && x.code == code) = some a)
    (ha1 : a.data_type ∉ [DataTypeEnum.VARCHAR, DataTypeEnum.TEXT])
    (ha2 : a.data_type ∉ [DataTypeEnum.INT, DataTypeEnum.BIGINT, DataTypeEnum.DECIMAL])
    (ha3 : a.data_type ∈ [DataTypeEnum.DATE, DataTypeEnum.DATETIME, DataTypeEnum.TIMESTAMP]) :
    get_attribute_value { db with datetime_values := dvs } inst code =
      match dvs.find?
          (fun r => r.entity_instance_id == inst.id && r.attribute_definition_id == a.id) with
      | some v => PyValue.datetime v.value
      | Option.none => PyValue.null :=
  get_attribute_value_of_datetime { db with datetime_values := dvs } inst code a hfind ha1 ha2 ha3

lemma get_attribute_value_boolean_update (db : DB) (bvs : List AttributeValueBoolean)
    (inst : EntityInstance) (code : String) (a : AttributeDefinition)
    (hfind : db.attribute_definitions.find?
      (fun x => x.entity_type_id == inst.entity_type_id && x.code == code) = some a)
    (ha : a.data_type = DataTypeEnum.BOOLEAN) :
    get_attribute_value { db with boolean_values := bvs } inst code =
      match bvs.find?
          (fun r => r.entity_instance_id == inst.id && r.attribute_definition_id == a.id) with
      | some v => PyValue.bool v.value
      | Option.none => PyValue.null :=
  get_attribute_value_of_boolean { db with boolean_values := bvs } inst code a hfind ha

-- ===========================================
-- C6
-- ===========================================

/-- C6: a non-blank form value written to a `BOOLEAN` attribute is
coerced by `process_form_data` to true exactly when the string,
lowercased, is one of `"true"`, `"1"`, `"yes"`, `"on"` (and to false for
every other input), and `set_attribute_value` followed by
`get_attribute_value` stores and reads back exactly that boolean. -/
theorem c6_boolean_write_coercion (db : DB) (inst : EntityInstance)
    (field : FormFieldConfiguration) (form : String → Option String) (s : String)
    (acc : List (String × PyValue)) (a : AttributeDefinition)
    (hvis : field.is_visible = true)
    (hform : form ("attr_" ++ field.attribute_definition.code) = some s)
    (hs : (s == "" || pyStrip s == "") = false)
    (hfa : field.attribute_definition.data_type = DataTypeEnum.BOOLEAN)
    (hfind : db.attribute_definitions.find?
      (fun x => x.entity_type_id == inst.entity_type_id
        && x.code == field.attribute_definition.code) = some a)
    (ha : a.data_type = DataTypeEnum.BOOLEAN) :
    processField form acc field =
      Except.ok (dictInsert acc field.attribute_definition.code
        (PyValue.bool (["true", "1", "yes", "on"].contains (pyLower s)))) ∧
    (∃ db2, set_attribute_value db inst field.attribute_definition.code
        (PyValue.bool (["true", "1", "yes", "on"].contains (pyLower s))) = some (db2, true) ∧
      get_attribute_value db2 inst field.attribute_definition.code =
        PyValue.bool (["true", "1", "yes", "on"].contains (pyLower s))) ∧
    ((["true", "1", "yes", "on"].contains (pyLower s)) = true ↔
      pyLower s ∈ ["true", "1", "yes", "on"]) := by
  refine ⟨?_, ?_, List.elem_iff⟩
  · unfold processField
    simp [hvis, hform, hs, hfa]
  · unfold set_attribute_value
    rw [hfind]
    cases hcase : db.boolean_values.find?
        (fun r => r.entity_instance_id == inst.id && r.attribute_definition_id == a.id) with
    | none =>
      simp only [ha, hcase]
      refine ⟨_, rfl, ?_⟩
      rw [get_attribute_value_boolean_update db _ inst field.attribute_definition.code a hfind ha]
      simp [List.find?_append, hcase, pyTruthy]
    | some r =>
      simp only [ha, hcase]
      refine ⟨_, rfl, ?_⟩
      rw [get_attribute_value_boolean_update db _ inst field.attribute_definition.code a hfind ha]
      rw [find?_setFirst
        (fun (r : AttributeValueBoolean) =>
          r.entity_instance_id == inst.id && r.attribute_definition_id == a.id)
        (fun r => { r with value := pyTruthy (PyValue.bool (["true", "1", "yes", "on"].contains (pyLower s))) })
        (by intro x hx; simpa using hx) db.boolean_values]
      simp [hcase, pyTruthy]

-- ===========================================
-- C3: sub-lemmas per store
-- ===========================================

lemma c3_text_case (db : DB) (inst : EntityInstance) (code : String) (a : AttributeDefinition)
    (hfind : db.attribute_definitions.find?
      (fun x => x.entity_type_id == inst.entity_type_id && x.code == code) = some a)
    (h1 : a.data_type ∈ [DataTypeEnum.VARCHAR, DataTypeEnum.TEXT])
    (hT : db.text_values.countP
      (fun r => r.entity_instance_id == inst.id && r.attribute_definition_id == a.id) ≤ 1)
    (hN : db.numeric_values.countP
      (fun r => r.entity_instance_id == inst.id && r.attribute_definition_id == a.id) = 0)
    (hD : db.datetime_values.countP
      (fun r => r.entity_instance_id == inst.id && r.attribute_definition_id == a.id) = 0)
    (hB : db.boolean_values.countP
      (fun r => r.entity_instance_id == inst.id && r.attribute_definition_id == a.id) = 0) :
    ∃ db2, set_attribute_value db inst code PyValue.null = some (db2, true) ∧
      get_attribute_value db2 inst code = PyValue.null ∧
      db2.text_values.countP
        (fun r => r.entity_instance_id == inst.id && r.attribute_definition_id == a.id) = 0 ∧
      db2.numeric_values.countP
        (fun r => r.entity_instance_id == inst.id && r.attribute_definition_id == a.id) = 0 ∧
      db2.datetime_values.countP
        (fun r => r.entity_instance_id == inst.id && r.attribute_definition_id == a.id) = 0 ∧
      db2.boolean_values.countP
        (fun r => r.entity_instance_id == inst.id && r.attribute_definition_id == a.id) = 0 := by
  unfold set_attribute_value
  rw [hfind]
  simp only [if_pos h1]
  cases hcase : db.text_values.find?
      (fun r => r.entity_instance_id == inst.id && r.attribute_definition_id == a.id) with
  | some r =>
    simp only [Option.isSome_some]
    refine ⟨_, rfl, ?_, ?_, hN, hD, hB⟩
    · rw [get_attribute_value_text_update db _ inst code a hfind h1]
      rw [find?_eq_none_of_countP_eq_zero (countP_removeFirst_eq_zero _ _ hT)]
    · exact countP_removeFirst_eq_zero _ _ hT
  | none =>
    simp only [Option.isSome_none]
    refine ⟨db, rfl, ?_, ?_, hN, hD, hB⟩
    · rw [get_attribute_value_of_text db inst code a hfind h1, hcase]
    · exact List.countP_eq_zero.mpr (List.find?_eq_none.mp hcase)

lemma c3_numeric_case (db : DB) (inst : EntityInstance) (code : String) (a : AttributeDefinition)
    (hfind : db.attribute_definitions.find?
      (fun x => x.entity_type_id == inst.entity_type_id && x.code == code) = some a)
    (h1 : a.data_type ∉ [DataTypeEnum.VARCHAR, DataTypeEnum.TEXT])
    (h2 : a.data_type ∈ [DataTypeEnum.INT, DataTypeEnum.BIGINT, DataTypeEnum.DECIMAL])
    (hT : db.text_values.countP
      (fun r => r.entity_instance_id == inst.id && r.attribute_definition_id == a.id) = 0)
    (hN : db.numeric_values.countP
      (fun r => r.entity_instance_id == inst.id && r.attribute_definition_id == a.id) ≤ 1)
    (hD : db.datetime_values.countP
      (fun r => r.entity_instance_id == inst.id && r.attribute_definition_id == a.id) = 0)
    (hB : db.boolean_values.countP
      (fun r => r.entity_instance_id == inst.id && r.attribute_definition_id == a.id) = 0) :
    ∃ db2, set_attribute_value db inst code PyValue.null = some (db2, true) ∧
      get_attribute_value db2 inst code = PyValue.null ∧
      db2.text_values.countP
        (fun r => r.entity_instance_id == inst.id && r.attribute_definition_id == a.id) = 0 ∧
      db2.numeric_values.countP
        (fun r => r.entity_instance_id == inst.id && r.attribute_definition_id == a.id) = 0 ∧
      db2.datetime_values.countP
        (fun r => r.entity_instance_id == inst.id && r.attribute_definition_id == a.id) = 0 ∧
      db2.boolean_values.countP
        (fun r => r.entity_instance_id == inst.id && r.attribute_definition_id == a.id) = 0 := by
  unfold set_attribute_value
  rw [hfind]
  simp only [if_neg h1, if_pos h2]
  cases hcase : db.numeric_values.find?
      (fun r => r.entity_instance_id == inst.id && r.attribute_definition_id == a.id) with
  | some r =>
    simp only [Option.isSome_some]
    refine ⟨_, rfl, ?_, hT, ?_, hD, hB⟩
    · rw [get_attribute_value_numeric_update db _ inst code a hfind h1 h2]
      rw [find?_eq_none_of_countP_eq_zero (countP_removeFirst_eq_zero _ _ hN)]
    · exact countP_removeFirst_eq_zero _ _ hN
  | none =>
    simp only [Option.isSome_none]
    refine ⟨db, rfl, ?_, hT, ?_, hD, hB⟩
    · rw [get_attribute_value_of_numeric db inst code a hfind h1 h2, hcase]
    · exact List.countP_eq_zero.mpr (List.find?_eq_none.mp hcase)

lemma c3_datetime_case (db : DB) (inst : EntityInstance) (code : String) (a : AttributeDefinition)
    (hfind : db.attribute_definitions.find?
      (fun x => x.entity_type_id == inst.entity_type_id && x.code == code) = some a)
    (h1 : a.data_type ∉ [DataTypeEnum.VARCHAR, DataTypeEnum.TEXT])
    (h2 : a.data_type ∉ [DataTypeEnum.INT, DataTypeEnum.BIGINT, DataTypeEnum.DECIMAL])
    (h3 : a.data_type ∈ [DataTypeEnum.DATE, DataTypeEnum.DATETIME, DataTypeEnum.TIMESTAMP])
    (hT : db.text_values.countP
      (fun r => r.entity_instance_id == inst.id && r.attribute_definition_id == a.id) = 0)
    (hN : db.numeric_values.countP
      (fun r => r.entity_instance_id == inst.id && r.attribute_definition_id == a.id) = 0)
    (hD : db.datetime_values.countP
      (fun r => r.entity_instance_id == inst.id && r.attribute_definition_id == a.id) ≤ 1)
    (hB : db.boolean_values.countP
      (fun r => r.entity_instance_id == inst.id && r.attribute_definition_id == a.id) = 0) :
    ∃ db2, set_attribute_value db inst code PyValue.null = some (db2, true) ∧
      get_attribute_value db2 inst code = PyValue.null ∧
      db2.text_values.countP
        (fun r => r.entity_instance_id == inst.id && r.attribute_definition_id == a.id) = 0 ∧
      db2.numeric_values.countP
        (fun r => r.entity_instance_id == inst.id && r.attribute_definition_id == a.id) = 0 ∧
      db2.datetime_values.countP
        (fun r => r.entity_instance_id == inst.id && r.attribute_definition_id == a.id) = 0 ∧
      db2.boolean_values.countP
        (fun r => r.entity_instance_id == inst.id && r.attribute_definition_id == a.id) = 0 := by
  unfold set_attribute_value
  rw [hfind]
  simp only [if_neg h1, if_neg h2, if_pos h3]
  cases hcase : db.datetime_values.find?
      (fun r => r.entity_instance_id == inst.id && r.attribute_definition_id == a.id) with
  | some r =>
    simp only [Option.isSome_some]
    refine ⟨_, rfl, ?_, hT, hN, ?_, hB⟩
    · rw [get_attribute_value_datetime_update db _ inst code a hfind h1 h2 h3]
      rw [find?_eq_none_of_countP_eq_zero (countP_removeFirst_eq_zero _ _ hD)]
    · exact countP_removeFirst_eq_zero _ _ hD
  | none =>
    simp only [Option.isSome_none]
    refine ⟨db, rfl, ?_, hT, hN, ?_, hB⟩
    · rw [get_attribute_value_of_datetime db inst code a hfind h1 h2 h3, hcase]
    · exact List.countP_eq_zero.mpr (List.find?_eq_none.mp hcase)

lemma c3_boolean_case (db : DB) (inst : EntityInstance) (code : String) (a : AttributeDefinition)
    (hfind : db.attribute_definitions.find?
      (fun x => x.entity_type_id == inst.entity_type_id && x.code == code) = some a)
    (ha : a.data_type = DataTypeEnum.BOOLEAN)
    (hT : db.text_values.countP
      (fun r => r.entity_instance_id == inst.id && r.attribute_definition_id == a.id) = 0)
    (hN : db.numeric_values.countP
      (fun r => r.entity_instance_id == inst.id && r.attribute_definition_id == a.id) = 0)
    (hD : db.datetime_values.countP
      (fun r => r.entity_instance_id == inst.id && r.attribute_definition_id == a.id) = 0)
    (hB : db.boolean_values.countP
      (fun r => r.entity_instance_id == inst.id && r.attribute_definition_id == a.id) ≤ 1) :
    ∃ db2, set_attribute_value db inst code PyValue.null = some (db2, true) ∧
      get_attribute_value db2 inst code = PyValue.null ∧
      db2.text_values.countP
        (fun r => r.entity_instance_id == inst.id && r.attribute_definition_id == a.id) = 0 ∧
      db2.numeric_values.countP
        (fun r => r.entity_instance_id == inst.id && r.attribute_definition_id == a.id) = 0 ∧
      db2.datetime_values.countP
        (fun r => r.entity_instance_id == inst.id && r.attribute_definition_id == a.id) = 0 ∧
      db2.boolean_values.countP
        (fun r => r.entity_instance_id == inst.id && r.attribute_definition_id == a.id) = 0 := by
  unfold set_attribute_value
  rw [hfind]
  simp only [ha]
  cases hcase : db.boolean_values.find?
      (fun r => r.entity_instance_id == inst.id && r.attribute_definition_id == a.id) with
  | some r =>
    simp only [Option.isSome_some]
    refine ⟨_, rfl, ?_, hT, hN, hD, ?_⟩
    · rw [get_attribute_value_boolean_update db _ inst code a hfind ha]
      rw [find?_eq_none_of_countP_eq_zero (countP_removeFirst_eq_zero _ _ hB)]
    · exact countP_removeFirst_eq_zero _ _ hB
  | none =>
    simp only [Option.isSome_none]
    refine ⟨db, rfl, ?_, hT, hN, hD, ?_⟩
    · rw [get_attribute_value_of_boolean db inst code a hfind ha, hcase]
    · exact List.countP_eq_zero.mpr (List.find?_eq_none.mp hcase)

lemma c3_json_case (db : DB) (inst : EntityInstance) (code : String) (a : AttributeDefinition)
    (hfind : db.attribute_definitions.find?
      (fun x => x.entity_type_id == inst.entity_type_id && x.code == code) = some a)
    (ha : a.data_type = DataTypeEnum.JSON)
    (hT : db.text_values.countP
      (fun r => r.entity_instance_id == inst.id && r.attribute_definition_id == a.id) = 0)
    (hN : db.numeric_values.countP
      (fun r => r.entity_instance_id == inst.id && r.attribute_definition_id == a.id) = 0)
    (hD : db.datetime_values.countP
      (fun r => r.entity_instance_id == inst.id && r.attribute_definition_id == a.id) = 0)
    (hB : db.boolean_values.countP
      (fun r => r.entity_instance_id == inst.id && r.attribute_definition_id == a.id) = 0) :
    ∃ db2, set_attribute_value db inst code PyValue.null = some (db2, true) ∧
      get_attribute_value db2 inst code = PyValue.null ∧
      db2.text_values.countP
        (fun r => r.entity_instance_id == inst.id && r.attribute_definition_id == a.id) = 0 ∧
      db2.numeric_values.countP
        (fun r => r.entity_instance_id == inst.id && r.attribute_definition_id == a.id) = 0 ∧
      db2.datetime_values.countP
        (fun r => r.entity_instance_id == inst.id && r.attribute_definition_id == a.id) = 0 ∧
      db2.boolean_values.countP
        (fun r => r.entity_instance_id == inst.id && r.attribute_definition_id == a.id) = 0 := by
  refine ⟨db, ?_, ?_, hT, hN, hD, hB⟩
  · unfold set_attribute_value
    rw [hfind]
    simp [ha]
  · unfold get_attribute_value
    rw [hfind]
    simp [ha]

-- ===========================================
-- C3
-- ===========================================

/-- C3: for an attribute `a` resolvable on the instance's entity type,
in any state respecting the storage invariants (at most one row per
(instance, attribute) pair in the store matching `a.data_type`, and no
row for the pair in the other stores), `set(I, A, null)` succeeds
without raising, a subsequent `get(I, A)` returns null, and no row for
the pair remains in any of the four value stores (a pre-existing row is
deleted; when none existed none is created). -/
theorem c3_set_null_deletes_row (db : DB) (inst : EntityInstance) (code : String)
    (a : AttributeDefinition)
    (hfind : db.attribute_definitions.find?
      (fun x => x.entity_type_id == inst.entity_type_id && x.code == code) = some a)
    (hT : db.text_values.countP
      (fun r => r.entity_instance_id == inst.id && r.attribute_definition_id == a.id)
      ≤ if a.data_type ∈ [DataTypeEnum.VARCHAR, DataTypeEnum.TEXT] then 1 else 0)
    (hN : db.numeric_values.countP
      (fun r => r.entity_instance_id == inst.id && r.attribute_definition_id == a.id)
      ≤ if a.data_type ∈ [DataTypeEnum.INT, DataTypeEnum.BIGINT, DataTypeEnum.DECIMAL] then 1 else 0)
    (hD : db.datetime_values.countP
      (fun r => r.entity_instance_id == inst.id && r.attribute_definition_id == a.id)
      ≤ if a.data_type ∈ [DataTypeEnum.DATE, DataTypeEnum.DATETIME, DataTypeEnum.TIMESTAMP] then 1 else 0)
    (hB : db.boolean_values.countP
      (fun r => r.entity_instance_id == inst.id && r.attribute_definition_id == a.id)
      ≤ if a.data_type = DataTypeEnum.BOOLEAN then 1 else 0) :
    ∃ db2, set_attribute_value db inst code PyValue.null = some (db2, true) ∧
      get_attribute_value db2 inst code = PyValue.null ∧
      db2.text_values.countP
        (fun r => r.entity_instance_id == inst.id && r.attribute_definition_id == a.id) = 0 ∧
      db2.numeric_values.countP
        (fun r => r.entity_instance_id == inst.id && r.attribute_definition_id == a.id) = 0 ∧
      db2.datetime_values.countP
        (fun r => r.entity_instance_id == inst.id && r.attribute_definition_id == a.id) = 0 ∧
      db2.boolean_values.countP
        (fun r => r.entity_instance_id == inst.id && r.attribute_definition_id == a.id) = 0 := by
  cases hdt : a.data_type with
  | VARCHAR =>
    exact c3_text_case db inst code a hfind (by simp [hdt]) (by simpa [hdt] using hT)
      (by simpa [hdt] using hN) (by simpa [hdt] using hD) (by simpa [hdt] using hB)
  | TEXT =>
    exact c3_text_case db inst code a hfind (by simp [hdt]) (by simpa [hdt] using hT)
      (by simpa [hdt] using hN) (by simpa [hdt] using hD) (by simpa [hdt] using hB)
  | INT =>
    exact c3_numeric_case db inst code a hfind (by simp [hdt]) (by simp [hdt])
      (by simpa [hdt] using hT) (by simpa [hdt] using hN) (by simpa [hdt] using hD)
      (by simpa [hdt] using hB)
  | BIGINT =>
    exact c3_numeric_case db inst code a hfind (by simp [hdt]) (by simp [hdt])
      (by simpa [hdt] using hT) (by simpa [hdt] using hN) (by simpa [hdt] using hD)
      (by simpa [hdt] using hB)
  | DECIMAL =>
    exact c3_numeric_case db inst code a hfind (by simp [hdt]) (by simp [hdt])
      (by simpa [hdt] using hT) (by simpa [hdt] using hN) (by simpa [hdt] using hD)
      (by simpa [hdt] using hB)
  | DATE =>
    exact c3_datetime_case db inst code a hfind (by simp [hdt]) (by simp [hdt])
      (by simp [hdt]) (by simpa [hdt] using hT) (by simpa [hdt] using hN)
      (by simpa [hdt] using hD) (by simpa [hdt] using hB)
  | DATETIME =>
    exact c3_datetime_case db inst code a hfind (by simp [hdt]) (by simp [hdt])
      (by simp [hdt]) (by simpa [hdt] using hT) (by simpa [hdt] using hN)
      (by simpa [hdt] using hD) (by simpa [hdt] using hB)
  | TIMESTAMP =>
    exact c3_datetime_case db inst code a hfind (by simp [hdt]) (by simp [hdt])
      (by simp [hdt]) (by simpa [hdt] using hT) (by simpa [hdt] using hN)
      (by simpa [hdt] using hD) (by simpa [hdt] using hB)
  | BOOLEAN =>
    exact c3_boolean_case db inst code a hfind hdt (by simpa [hdt] using hT)
      (by simpa [hdt] using hN) (by simpa [hdt] using hD) (by simpa [hdt] using hB)
  | JSON =>
    exact c3_json_case db inst code a hfind hdt (by simpa [hdt] using hT)
      (by simpa [hdt] using hN) (by simpa [hdt] using hD) (by simpa [hdt] using hB)

/-- Witness for C3 at the concrete CARGO_MASTER state: clearing
`CARGO_NAME` of instance 1 deletes its text row. -/
theorem c3_witness :
    ∃ db2, set_attribute_value dbCargo ⟨1, 1, true⟩ "CARGO_NAME" PyValue.null
        = some (db2, true) ∧
      get_attribute_value db2 ⟨1, 1, true⟩ "CARGO_NAME" = PyValue.null ∧
      db2.text_values.countP
        (fun r => r.entity_instance_id == (1 : Nat) && r.attribute_definition_id == cargoNameAttr.id) = 0 ∧
      db2.numeric_values.countP
        (fun r => r.entity_instance_id == (1 : Nat) && r.attribute_definition_id == cargoNameAttr.id) = 0 ∧
      db2.datetime_values.countP
        (fun r => r.entity_instance_id == (1 : Nat) && r.attribute_definition_id == cargoNameAttr.id) = 0 ∧
      db2.boolean_values.countP
        (fun r => r.entity_instance_id == (1 : Nat) && r.attribute_definition_id == cargoNameAttr.id) = 0 :=
  c3_set_null_deletes_row dbCargo ⟨1, 1, true⟩ "CARGO_NAME" cargoNameAttr
    (by decide) (by decide) (by decide) (by decide) (by decide)

/-- Witness for C6 at a concrete state: the input `"YeS"` stores true. -/
theorem c6_witness :
    processField (fun n => if n == "attr_IS_HAZMAT" then some "YeS" else Option.none) []
      { attribute_definition := ⟨5, 1, "IS_HAZMAT", "Is Hazmat", DataTypeEnum.BOOLEAN, false, false, true⟩,
        is_visible := true, is_editable := true, is_required := false } =
      Except.ok (dictInsert [] "IS_HAZMAT"
        (PyValue.bool (["true", "1", "yes", "on"].contains (pyLower "YeS")))) ∧
    (∃ db2, set_attribute_value dbBoolAttr ⟨1, 1, true⟩ "IS_HAZMAT"
        (PyValue.bool (["true", "1", "yes", "on"].contains (pyLower "YeS"))) = some (db2, true) ∧
      get_attribute_value db2 ⟨1, 1, true⟩ "IS_HAZMAT" =
        PyValue.bool (["true", "1", "yes", "on"].contains (pyLower "YeS"))) ∧
    ((["true", "1", "yes", "on"].contains (pyLower "YeS")) = true ↔
      pyLower "YeS" ∈ ["true", "1", "yes", "on"]) :=
  c6_boolean_write_coercion dbBoolAttr ⟨1, 1, true⟩
    { attribute_definition := ⟨5, 1, "IS_HAZMAT", "Is Hazmat", DataTypeEnum.BOOLEAN, false, false, true⟩,
      is_visible := true, is_editable := true, is_required := false }
    (fun n => if n == "attr_IS_HAZMAT" then some "YeS" else Option.none) "YeS" []
    ⟨5, 1, "IS_HAZMAT", "Is Hazmat", DataTypeEnum.BOOLEAN, false, false, true⟩
    rfl (by decide) (by decide) rfl (by decide) rfl

-- ===========================================
-- C5
-- ===========================================

/-- C5 counterexample: a create submission whose only (visible,
required) attribute is absent from the form does not abort with a
`ValidationError`: `process_form_data` returns an empty dictionary
without raising, and the subsequent creation persists a new
`EntityInstance` row (id 2, the second row). -/
theorem c5_counterexample :
    process_form_data [⟨cargoNameAttr, true, true, true⟩] (fun _ => Option.none) = Except.ok [] ∧
    (create_entity_instance_with_attributes dbCargo 1 []).map
      (fun p => (p.2, p.1.entity_instances.length)) = some (2, 2) :=
  ⟨rfl, rfl⟩

/-- C5 (amended): a visible field whose submitted value is missing or
blank and which is required (on the field configuration or the attribute
definition) is silently skipped by `process_form_data`: the accumulated
dictionary is returned unchanged for that field and no error is raised;
`ValueError` arises only from a failed type conversion of a non-blank
value on a required field. -/
theorem c5_required_empty_silently_skipped (field : FormFieldConfiguration)
    (form : String → Option String) (acc : List (String × PyValue))
    (hvis : field.is_visible = true)
    (hreq : (field.is_required || field.attribute_definition.is_required) = true)
    (hempty : form ("attr_" ++ field.attribute_definition.code) = Option.none ∨
      ∃ s, form ("attr_" ++ field.attribute_definition.code) = some s ∧
        (s == "" || pyStrip s == "") = true) :
    processField form acc field = Except.ok acc := by
  unfold processField
  rcases hempty with h | ⟨s, h, hs⟩
  · simp [hvis, hreq, h]
  · simp [hvis, hreq, h, hs]

/-- Witness for the amended C5. -/
theorem c5_witness :
    processField (fun _ => Option.none) []
      { attribute_definition := cargoNameAttr, is_visible := true,
        is_editable := true, is_required := true } = Except.ok [] :=
  c5_required_empty_silently_skipped
    { attribute_definition := cargoNameAttr, is_visible := true,
      is_editable := true, is_required := true }
    (fun _ => Option.none) [] rfl (by decide) (Or.inl rfl)

-- ===========================================
-- C7
-- ===========================================

/-- C7 counterexample: with an unresolvable display attribute code the
options list is not empty — the display attribute falls back to the
source attribute and the option built from instance 1 is returned. -/
theorem c7_counterexample :
    get_dropdown_options dbCargo 1 "CARGO_NAME" (some "MISSING") false =
      [{ value := PyValue.str "Coal", label := PyValue.str "Coal", instance_id := 1 }] ∧
    get_dropdown_options dbCargo 1 "CARGO_NAME" (some "MISSING") false ≠ [] := by
  decide

/-- C7 (amended): `get_dropdown_options` returns the empty list (and
raises nothing: the embedding is a total function) when the source
entity type id or the source attribute code does not resolve; an
unresolvable display attribute code does not empty the result but falls
back to the source attribute. -/
theorem c7_unresolved_inputs (db : DB) (entity_type_id : Nat)
    (source_attribute_code : String) (display_attribute_code : Option String)
    (unique_only : Bool) :
    (db.entity_types.find? (fun e => e.id == entity_type_id) = Option.none →
      get_dropdown_options db entity_type_id source_attribute_code display_attribute_code
        unique_only = []) ∧
    (db.attribute_definitions.find?
        (fun (a : AttributeDefinition) => a.entity_type_id == entity_type_id
          && a.code == source_attribute_code && a.is_active) = Option.none →
      get_dropdown_options db entity_type_id source_attribute_code display_attribute_code
        unique_only = []) ∧
    (∀ dc : String, display_attribute_code = some dc → dc ≠ source_attribute_code →
      db.attribute_definitions.find?
        (fun (a : AttributeDefinition) => a.entity_type_id == entity_type_id
          && a.code == dc && a.is_active) = Option.none →
      get_dropdown_options db entity_type_id source_attribute_code (some dc) unique_only =
        get_dropdown_options db entity_type_id source_attribute_code Option.none unique_only) := by
  refine ⟨?_, ?_, ?_⟩
  · intro h
    unfold get_dropdown_options
    rw [h]
  · intro h
    unfold get_dropdown_options
    cases het : db.entity_types.find? (fun e => e.id == entity_type_id) with
    | none => rfl
    | some et => rw [h]
  · intro dc hdc hne h
    unfold get_dropdown_options
    cases het : db.entity_types.find? (fun e => e.id == entity_type_id) with
    | none => rfl
    | some et =>
      cases hsa : db.attribute_definitions.find?
          (fun (a : AttributeDefinition) => a.entity_type_id == entity_type_id
            && a.code == source_attribute_code && a.is_active) with
      | none => rfl
      | some source_attr =>
        simp only [if_pos hne, h]

/-- Witness for the amended C7, exercising all three conjuncts at
concrete inputs. -/
theorem c7_witness :
    get_dropdown_options dbCargo 99 "CARGO_NAME" Option.none false = [] ∧
    get_dropdown_options dbCargo 1 "NO_SUCH_ATTR" Option.none false = [] ∧
    get_dropdown_options dbCargo 1 "CARGO_NAME" (some "MISSING") false =
      get_dropdown_options dbCargo 1 "CARGO_NAME" Option.none false :=
  ⟨(c7_unresolved_inputs dbCargo 99 "CARGO_NAME" Option.none false).1 (by decide),
   (c7_unresolved_inputs dbCargo 1 "NO_SUCH_ATTR" Option.none false).2.1 (by decide),
   (c7_unresolved_inputs dbCargo 1 "CARGO_NAME" (some "MISSING") false).2.2 "MISSING" rfl
     (by decide) (by decide)⟩

-- ===========================================
-- C1
-- ===========================================

/-- C1 counterexample: in the CARGO_MASTER state, where instance 1
already carries `CARGO_NAME = "Coal"` on the required unique VARCHAR
attribute, creating a second instance with the same value does not fail
with a ValidationError: the creation succeeds (instance id 2), a new
`EntityInstance` row is persisted, and a second text value row carrying
the duplicate `"Coal"` is persisted. -/
theorem c1_counterexample :
    (create_entity_instance_with_attributes dbCargo 1
        [("CARGO_NAME", PyValue.str "Coal")]).map
      (fun p => (p.2, p.1.entity_instances.length, p.1.text_values)) =
      some (2, 2, [⟨1, 1, "Coal"⟩, ⟨2, 1, "Coal"⟩]) :=
  rfl

/-- C1 (amended): `create_entity_instance_with_attributes` performs no
uniqueness validation: for any state whose next instance id is fresh for
the text store, creating an instance with any value `s` on a VARCHAR
attribute flagged `is_unique` — even a value already present for that
attribute — succeeds and persists one new `EntityInstance` row and one
new text value row carrying `s`. -/
theorem c1_unique_flag_not_enforced (db : DB) (entity_type_id : Nat) (c s : String)
    (a : AttributeDefinition)
    (hfind : db.attribute_definitions.find?
      (fun x => x.entity_type_id == entity_type_id && x.code == c) = some a)
    (ha : a.data_type = DataTypeEnum.VARCHAR)
    (hu : a.is_unique = true)
    (hfresh : ∀ r ∈ db.text_values, r.entity_instance_id ≠ db.next_instance_id) :
    ∃ db2, create_entity_instance_with_attributes db entity_type_id [(c, PyValue.str s)] =
        some (db2, db.next_instance_id) ∧
      db2.entity_instances = db.entity_instances
        ++ [{ id := db.next_instance_id, entity_type_id := entity_type_id, is_active := true }] ∧
      db2.text_values = db.text_values
        ++ [{ entity_instance_id := db.next_instance_id, attribute_definition_id := a.id,
              value := s }] := by
  have hnone : db.text_values.find?
      (fun r => r.entity_instance_id == db.next_instance_id
        && r.attribute_definition_id == a.id) = Option.none := by
    refine List.find?_eq_none.mpr ?_
    intro r hr
    simp [hfresh r hr]
  unfold create_entity_instance_with_attributes
  simp only [setManyAttributes]
  unfold set_attribute_value
  simp only [hfind]
  simp only [ha]
  simp only [hnone]
  exact ⟨_, rfl, rfl, rfl⟩

/-- Witness for the amended C1, at the duplicate-"Coal" input of the
spec scenario. -/
theorem c1_witness :
    ∃ db2, create_entity_instance_with_attributes dbCargo 1 [("CARGO_NAME", PyValue.str "Coal")] =
        some (db2, dbCargo.next_instance_id) ∧
      db2.entity_instances = dbCargo.entity_instances
        ++ [{ id := dbCargo.next_instance_id, entity_type_id := 1, is_active := true }] ∧
      db2.text_values = dbCargo.text_values
        ++ [{ entity_instance_id := dbCargo.next_instance_id,
              attribute_definition_id := cargoNameAttr.id, value := "Coal" }] :=
  c1_unique_flag_not_enforced dbCargo 1 "CARGO_NAME" "Coal" cargoNameAttr
    (by decide) rfl rfl (by decide)

-- ===========================================
-- C8: invariants of the dropdown collection loop under unique_only
-- ===========================================

lemma dropdownLoop_unique_invariant (db : DB) (src dc : String) :
    ∀ (insts : List EntityInstance) (seen : List PyValue) (opts : List DropdownOption),
      (opts.map (fun o => o.value)).Nodup →
      (∀ o ∈ opts, o.value ∈ seen) →
      (∀ o ∈ opts, o.value ≠ PyValue.null) →
      ((dropdownLoop db src dc true insts seen opts).map (fun o => o.value)).Nodup ∧
      (∀ o ∈ dropdownLoop db src dc true insts seen opts, o.value ≠ PyValue.null) ∧
      (∀ o ∈ dropdownLoop db src dc true insts seen opts,
        o ∈ opts ∨ (o.value ∉ seen ∧
          ∃ i, insts.find? (fun j => get_attribute_value db j src == o.value) = some i ∧
            o.instance_id = i.id)) := by
  intro insts
  induction insts with
  | nil =>
    intro seen opts h1 h2 h3
    exact ⟨h1, h3, fun o ho => Or.inl ho⟩
  | cons i rest ih =>
    intro seen opts h1 h2 h3
    by_cases hnull : get_attribute_value db i src = PyValue.null
    · have hloop : dropdownLoop db src dc true (i :: rest) seen opts =
          dropdownLoop db src dc true rest seen opts := by
        simp [dropdownLoop, hnull]
      rw [hloop]
      obtain ⟨g1, g2, g3⟩ := ih seen opts h1 h2 h3
      refine ⟨g1, g2, ?_⟩
      intro o ho
      rcases g3 o ho with h | ⟨hsn, i', hfind, hid⟩
      · exact Or.inl h
      · refine Or.inr ⟨hsn, i', ?_, hid⟩
        have hpred : ¬((get_attribute_value db i src == o.value) = true) := by
          simp only [beq_iff_eq, hnull]
          intro hh
          exact g2 o ho hh.symm
        exact (List.find?_cons_of_neg rest hpred).trans hfind
    · by_cases hseen : seen.contains (get_attribute_value db i src) = true
      · have hmemsv : get_attribute_value db i src ∈ seen := List.elem_iff.mp hseen
        have hloop : dropdownLoop db src dc true (i :: rest) seen opts =
            dropdownLoop db src dc true rest seen opts := by
          simp [dropdownLoop, hnull, hmemsv]
        rw [hloop]
        obtain ⟨g1, g2, g3⟩ := ih seen opts h1 h2 h3
        refine ⟨g1, g2, ?_⟩
        intro o ho
        rcases g3 o ho with h | ⟨hsn, i', hfind, hid⟩
        · exact Or.inl h
        · refine Or.inr ⟨hsn, i', ?_, hid⟩
          have hpred : ¬((get_attribute_value db i src == o.value) = true) := by
            simp only [beq_iff_eq]
            intro hh
            exact hsn (hh ▸ List.elem_iff.mp hseen)
          exact (List.find?_cons_of_neg rest hpred).trans hfind
      · have hsvnotseen : get_attribute_value db i src ∉ seen :=
          fun hm => hseen (List.elem_iff.mpr hm)
        have hloop : dropdownLoop db src dc true (i :: rest) seen opts =
            dropdownLoop db src dc true rest (get_attribute_value db i src :: seen)
              (opts ++ [(⟨get_attribute_value db i src, if pyTruthy (get_attribute_value db i dc) then get_attribute_value db i dc else get_attribute_value db i src, i.id⟩ : DropdownOption)]) := by
          simp [dropdownLoop, hnull, hsvnotseen]
        rw [hloop]
        have h1' : (((opts ++ [(⟨get_attribute_value db i src, if pyTruthy (get_attribute_value db i dc) then get_attribute_value db i dc else get_attribute_value db i src, i.id⟩ : DropdownOption)]) : List DropdownOption).map (fun o => o.value)).Nodup := by
          rw [List.map_append]
          refine List.Nodup.append h1 (List.nodup_singleton _) ?_
          intro v hv hv2
          obtain ⟨o, ho, hval⟩ := List.mem_map.mp hv
          simp only [List.map_cons, List.map_nil, List.mem_singleton] at hv2
          exact hsvnotseen (hv2 ▸ hval ▸ h2 o ho)
        have h2' : ∀ o ∈ ((opts ++ [(⟨get_attribute_value db i src, if pyTruthy (get_attribute_value db i dc) then get_attribute_value db i dc else get_attribute_value db i src, i.id⟩ : DropdownOption)]) : List DropdownOption),
            o.value ∈ get_attribute_value db i src :: seen := by
          intro o ho
          rcases List.mem_append.mp ho with h | h
          · exact List.mem_cons_of_mem _ (h2 o h)
          · rw [List.mem_singleton.mp h]
            exact List.mem_cons_self _ _
        have h3' : ∀ o ∈ ((opts ++ [(⟨get_attribute_value db i src, if pyTruthy (get_attribute_value db i dc) then get_attribute_value db i dc else get_attribute_value db i src, i.id⟩ : DropdownOption)]) : List DropdownOption), o.value ≠ PyValue.null := by
          intro o ho
          rcases List.mem_append.mp ho with h | h
          · exact h3 o h
          · rw [List.mem_singleton.mp h]
            exact hnull
        obtain ⟨g1, g2, g3⟩ := ih _ _ h1' h2' h3'
        refine ⟨g1, g2, ?_⟩
        intro o ho
        rcases g3 o ho with hmem | ⟨hsn, i', hfind, hid⟩
        · rcases List.mem_append.mp hmem with h | h
          · exact Or.inl h
          · rw [List.mem_singleton.mp h]
            exact Or.inr ⟨hsvnotseen, i, List.find?_cons_of_pos rest (by simp), rfl⟩
        · have hnsv : o.value ≠ get_attribute_value db i src := by
            intro hh
            exact hsn (hh ▸ List.mem_cons_self _ _)
          refine Or.inr ⟨fun hm => hsn (List.mem_cons_of_mem _ hm), i', ?_, hid⟩
          have hpred : ¬((get_attribute_value db i src == o.value) = true) := by
            simp only [beq_iff_eq]
            intro hh
            exact hnsv hh.symm
          exact (List.find?_cons_of_neg rest hpred).trans hfind

lemma c8_core (db : DB) (src dcode : String) (instances : List EntityInstance) :
    ((stableSort labelLe (dropdownLoop db src dcode true instances [] [])).map
      (fun o => o.value)).Nodup ∧
    (∀ o ∈ stableSort labelLe (dropdownLoop db src dcode true instances [] []),
      o.value ≠ PyValue.null) ∧
    List.Pairwise (fun o1 o2 => labelLe o1 o2 = true)
      (stableSort labelLe (dropdownLoop db src dcode true instances [] [])) ∧
    (∀ o ∈ stableSort labelLe (dropdownLoop db src dcode true instances [] []),
      ∃ i, instances.find? (fun j => get_attribute_value db j src == o.value) = some i ∧
        o.instance_id = i.id) := by
  obtain ⟨g1, g2, g3⟩ := dropdownLoop_unique_invariant db src dcode instances [] []
    (by simp) (by simp) (by simp)
  refine ⟨?_, ?_, pairwise_stableSort labelLe_trans labelLe_total _, ?_⟩
  · exact (((stableSort_perm labelLe _).map (fun o => o.value)).symm).nodup g1
  · intro o ho
    exact g2 o (mem_stableSort.mp ho)
  · intro o ho
    rcases g3 o (mem_stableSort.mp ho) with h | ⟨_, i, hfind, hid⟩
    · cases h
    · exact ⟨i, hfind, hid⟩

/-- Either an early-out empty result, or the sorted loop over the active
instances with some display attribute code. -/
lemma get_dropdown_options_shape (db : DB) (entity_type_id : Nat)
    (source_attribute_code : String) (display_attribute_code : Option String)
    (unique_only : Bool) :
    get_dropdown_options db entity_type_id source_attribute_code display_attribute_code
      unique_only = [] ∨
    ∃ dcode, get_dropdown_options db entity_type_id source_attribute_code
        display_attribute_code unique_only =
      stableSort labelLe (dropdownLoop db source_attribute_code dcode unique_only
        (db.entity_instances.filter
          (fun i => i.entity_type_id == entity_type_id && i.is_active)) [] []) := by
  unfold get_dropdown_options
  cases het : db.entity_types.find? (fun e => e.id == entity_type_id) with
  | none => exact Or.inl rfl
  | some et =>
    cases hsa : db.attribute_definitions.find?
        (fun (a : AttributeDefinition) => a.entity_type_id == entity_type_id
          && a.code == source_attribute_code && a.is_active) with
    | none => exact Or.inl rfl
    | some source_attr => exact Or.inr ⟨_, rfl⟩

-- ===========================================
-- C8
-- ===========================================

/-- C8: with `unique_only = true`, the dropdown option list never
contains two entries with the same value, every entry's value is
non-null (instances with a null source value are skipped), the list is
sorted by label ascending under string comparison, and each entry comes
from the first active instance carrying its value (first occurrence
kept). -/
theorem c8_unique_dropdown_dedup_sorted (db : DB) (entity_type_id : Nat)
    (source_attribute_code : String) (display_attribute_code : Option String) :
    ((get_dropdown_options db entity_type_id source_attribute_code display_attribute_code
      true).map (fun o => o.value)).Nodup ∧
    (∀ o ∈ get_dropdown_options db entity_type_id source_attribute_code
      display_attribute_code true, o.value ≠ PyValue.null) ∧
    List.Pairwise (fun o1 o2 => labelLe o1 o2 = true)
      (get_dropdown_options db entity_type_id source_attribute_code
        display_attribute_code true) ∧
    (∀ o ∈ get_dropdown_options db entity_type_id source_attribute_code
        display_attribute_code true,
      ∃ i, (db.entity_instances.filter
          (fun i => i.entity_type_id == entity_type_id && i.is_active)).find?
          (fun j => get_attribute_value db j source_attribute_code == o.value) = some i ∧
        o.instance_id = i.id) := by
  rcases get_dropdown_options_shape db entity_type_id source_attribute_code
      display_attribute_code true with h | ⟨dcode, h⟩
  · rw [h]
    exact ⟨List.nodup_nil, by simp, List.Pairwise.nil, by simp⟩
  · rw [h]
    exact c8_core db source_attribute_code dcode _

/-- The spec scenario for dropdown deduplication: three active
CARGO_MASTER instances carrying `CARGO_NAME` values `"Coal"`, `"Coal"`,
`"Iron Ore"`. -/
def dbCargo3 : DB :=
  { emptyDB with
    entity_types := [⟨1, 1, "CARGO_MASTER", true⟩],
    attribute_definitions := [cargoNameAttr],
    entity_instances := [⟨1, 1, true⟩, ⟨2, 1, true⟩, ⟨3, 1, true⟩],
    text_values := [⟨1, 1, "Coal"⟩, ⟨2, 1, "Coal"⟩, ⟨3, 1, "Iron Ore"⟩],
    next_instance_id := 4 }

/-- Witness for C8 at the concrete duplicate scenario; the concluding
conjunct also evaluates the concrete result: exactly one `"Coal"` entry
(first occurrence, instance 1) and one `"Iron Ore"` entry, sorted by
label. -/
theorem c8_witness :
    (((get_dropdown_options dbCargo3 1 "CARGO_NAME" Option.none true).map
      (fun o => o.value)).Nodup ∧
    (∀ o ∈ get_dropdown_options dbCargo3 1 "CARGO_NAME" Option.none true,
      o.value ≠ PyValue.null) ∧
    List.Pairwise (fun o1 o2 => labelLe o1 o2 = true)
      (get_dropdown_options dbCargo3 1 "CARGO_NAME" Option.none true) ∧
    (∀ o ∈ get_dropdown_options dbCargo3 1 "CARGO_NAME" Option.none true,
      ∃ i, (dbCargo3.entity_instances.filter
          (fun i => i.entity_type_id == (1 : Nat) && i.is_active)).find?
          (fun j => get_attribute_value dbCargo3 j "CARGO_NAME" == o.value) = some i ∧
        o.instance_id = i.id)) ∧
    get_dropdown_options dbCargo3 1 "CARGO_NAME" Option.none true =
      [{ value := PyValue.str "Coal", label := PyValue.str "Coal", instance_id := 1 },
       { value := PyValue.str "Iron Ore", label := PyValue.str "Iron Ore", instance_id := 3 }] :=
  ⟨c8_unique_dropdown_dedup_sorted dbCargo3 1 "CARGO_NAME" Option.none, by decide⟩

end FlaskEAV
